import Mathlib

/-!
Verification of the Doremon_E103A contribution-scoring dashboard.

The definitions below are a shallow embedding of the TypeScript source:
  - `src/Backend/services/api.ts` (fetchUsers, calculateScore,
    generateAdvancedMetrics, generateHistory),
  - `src/unnamed/part_000` (the orchestrating loadData of the app component
    and the score recomputation in the UserDetail component),
  - `src/unnamed/part_001` (the shared type declarations).
JavaScript numbers are modelled as rationals (ℚ); `Math.random()` draws are
modelled as an explicit stream `rand : ℕ → ℚ` of values in [0,1); a rejected
promise / thrown error is modelled as `Option.none`.
-/

namespace Doremon

/-- `Variables` from src/unnamed/part_001 lines 14-19: the per-user activity
variables returned by the backend. -/
structure Variables where
  base_points : ℚ
  difficulty_factor : ℚ
  peer_kudos_count : ℚ
  blocker_penalty_total : ℚ
deriving DecidableEq, Repr

/-- `User` from src/unnamed/part_001 lines 1-6. -/
structure User where
  id : String
  name : String
  role : String
  avatarUrl : Option String
deriving DecidableEq, Repr

/-- The local score computation of `calculateScore` in
src/Backend/services/api.ts lines 116-119:
`base_points * difficulty_factor + peer_kudos_count * 1.5 - blocker_penalty_total`. -/
def calculatedScore (v : Variables) : ℚ :=
  v.base_points * v.difficulty_factor + v.peer_kudos_count * (3 / 2) - v.blocker_penalty_total

/-- The identical recomputation inside `loadData` in src/unnamed/part_000
lines 656-659. -/
def loadDataScore (v : Variables) : ℚ :=
  v.base_points * v.difficulty_factor + v.peer_kudos_count * (3 / 2) - v.blocker_penalty_total

/-- The weighted activity sum (base work): `base_points * difficulty_factor`,
the `difficultyScore` of the UserDetail component (src/unnamed/part_000
line 206). -/
def base_work (v : Variables) : ℚ :=
  v.base_points * v.difficulty_factor

/-- The amount the score formula subtracts as blocker penalty: the raw
`blocker_penalty_total` field, applied with no clamp
(src/Backend/services/api.ts line 119). -/
def penaltyTotal (v : Variables) : ℚ :=
  v.blocker_penalty_total

/-- `PROVIDED_USER_IDS` from src/Backend/services/api.ts lines 18-24. -/
def PROVIDED_USER_IDS : List String :=
  ["alice-dev", "bob-backend", "charlie-frontend", "diana-ml", "ethan-arch"]

/-- JS `s.charAt(0).toUpperCase() + s.slice(1)`. -/
def capitalizeFirst (s : String) : String :=
  match s.data with
  | [] => ""
  | c :: cs => String.mk (c.toUpper :: cs)

/-- JS `s.toUpperCase()` (ASCII identifiers only in this code base). -/
def upperStr (s : String) : String :=
  String.mk (s.data.map Char.toUpper)

/-- JS `s.split(c)` on the underlying character list: splits at every
occurrence of `c`, keeping empty segments, never returning an empty list. -/
def splitOnChar (c : Char) : List Char → List (List Char)
  | [] => [[]]
  | x :: xs =>
    let r := splitOnChar c xs
    if x = c then [] :: r else (x :: r.headD []) :: r.tail

/-- JS `s.split(c)` as an operation on strings. -/
def jsSplit (s : String) (c : Char) : List String :=
  (splitOnChar c s.data).map String.mk

/-- `fetchUsers` from src/Backend/services/api.ts lines 82-95: a constant
list built from `PROVIDED_USER_IDS`, never contacting the network. -/
def fetchUsers : List User :=
  PROVIDED_USER_IDS.map (fun id =>
    let parts := jsSplit id '-'
    let name := capitalizeFirst (parts.headD "")
    let role := if parts.length > 1 then upperStr (parts.getD 1 "") else "MEMBER"
    { id := id, name := name, role := role, avatarUrl := none })

/-- JS `a.includes(b)` on strings: substring containment. -/
def includesStr (s sub : String) : Bool :=
  decide (sub.data <:+: s.data)

/-- One entry of the generated `score_history`
(src/unnamed/part_001 line 58). -/
structure HistEntry where
  month : String
  score : ℚ
deriving DecidableEq, Repr

/-- The month labels of `generateHistory`
(src/Backend/services/api.ts line 28). -/
def monthsList : List String :=
  ["Jan", "Feb", "Mar", "Apr", "May", "Jun"]

/-- `generateHistory` from src/Backend/services/api.ts lines 27-33; the i-th
`Math.random()` call is modelled as `rand i` (a value in [0,1)):
`score = Math.max(0, baseScore + (Math.random() * 40 - 20) + i * 2)`. -/
def generateHistory (baseScore : ℚ) (rand : ℕ → ℚ) : List HistEntry :=
  monthsList.enum.map (fun p =>
    { month := p.2, score := max 0 (baseScore + (rand p.1 * 40 - 20) + p.1 * 2) })

/-- `SkillMetric` from src/unnamed/part_001 lines 22-26. -/
structure SkillMetric where
  name : String
  score : ℚ
  gap : ℚ
deriving DecidableEq, Repr

/-- `ProjectContribution` from src/unnamed/part_001 lines 28-33. -/
structure ProjectContribution where
  name : String
  impact_value : String
  role : String
  contribution_pct : ℚ
deriving DecidableEq, Repr

/-- `WellnessMetrics` from src/unnamed/part_001 lines 35-40. -/
structure WellnessMetrics where
  burnout_risk : ℚ
  async_efficiency : ℚ
  timezone_load_balance : String
  last_break_taken : String
deriving DecidableEq, Repr

/-- `CareerGrowth` from src/unnamed/part_001 lines 42-47. -/
structure CareerGrowth where
  mentorship_score : ℚ
  learning_velocity : ℚ
  promotion_readiness : ℚ
  next_level_skills : List String
deriving DecidableEq, Repr

/-- `AdvancedMetrics` from src/unnamed/part_001 lines 49-59. -/
structure AdvancedMetrics where
  skills : List SkillMetric
  projects : List ProjectContribution
  wellness : WellnessMetrics
  growth : CareerGrowth
  innovation_score : ℚ
  tech_debt_reduction : ℚ
  customer_impact : ℤ
  attrition_risk_prediction : String
  score_history : List HistEntry
deriving DecidableEq, Repr

/-- `generateAdvancedMetrics` from src/Backend/services/api.ts lines 36-80,
with the `Math.random()` stream of `generateHistory` passed explicitly. -/
def generateAdvancedMetrics (userId : String) (baseScore : ℚ) (rand : ℕ → ℚ) :
    AdvancedMetrics :=
  let isDev := includesStr userId "dev" || includesStr userId "frontend" ||
    includesStr userId "backend"
  let isArch := includesStr userId "arch"
  let isMl := includesStr userId "ml"
  { skills := [
      ⟨"Architecture", if isArch then 95 else 40, if isArch then 0 else -20⟩,
      ⟨"Code Quality", if isDev then 90 else 70, 5⟩,
      ⟨"DevOps", if isDev then 60 else 30, -15⟩,
      ⟨"Communication", if baseScore > 120 then 85 else 60, 0⟩,
      ⟨"Innovation", if isMl then 95 else 50, 0⟩],
    projects := [
      ⟨"Project Alpha", "$2M", "Lead", 45⟩,
      ⟨"Legacy Migration", "Efficiency", "Contributor", 20⟩],
    wellness :=
      ⟨if baseScore > 150 then 85 else 30, 85 / 10, "Optimal", "2 hours ago"⟩,
    growth :=
      ⟨if isArch then 92 / 10 else 45 / 10, 88 / 10,
        if baseScore > 130 then 90 else 60,
        ["Strategic Planning", "Public Speaking"]⟩,
    innovation_score := if isMl then 92 else 65,
    tech_debt_reduction := if isArch then 450 else 120,
    customer_impact := Rat.floor (baseScore * 10),
    attrition_risk_prediction := if baseScore > 160 then "High" else "Low",
    score_history := generateHistory baseScore rand }

/-- The value resolved by `calculateScore` (src/Backend/services/api.ts
lines 97-133) on a successful fetch whose body carried `v`: the fetched data
together with the attached simulated advanced metrics. (The source field
named `variables` is rendered `vars` here: `variables` is reserved in
Lean 4.) -/
structure CalcResult where
  vars : Variables
  advanced : AdvancedMetrics
deriving DecidableEq, Repr

/-- The successful branch of `calculateScore`: the locally recomputed score
is fed to `generateAdvancedMetrics` and the result attached to the data. -/
def calculateScoreResult (userId : String) (v : Variables) (rand : ℕ → ℚ) :
    CalcResult :=
  { vars := v, advanced := generateAdvancedMetrics userId (calculatedScore v) rand }

/-- One entry of the batch result assembled by `loadData`
(src/unnamed/part_000 lines 661-665): the user record spread together with
the fetched data and the recomputed `final_score` (the
`FullUserPerformance` of src/unnamed/part_001 lines 67-70, restricted to the
fields the claims concern). -/
structure FullUserPerformance where
  user : User
  vars : Variables
  final_score : ℚ
deriving DecidableEq, Repr

/-- The per-member fan-out and merge of `loadData` (src/unnamed/part_000
lines 648-673): each member is mapped to its performance record when
`calculateScore` resolves with valid data (`fetch u.id = some v`), and to
`null` when it throws (`none`); the final `.filter(p ≠ null)` drops the
failed members. -/
def loadDataResults (usersList : List User) (fetch : String → Option Variables) :
    List FullUserPerformance :=
  (usersList.map (fun user =>
    (fetch user.id).map (fun v =>
      { user := user, vars := v, final_score := loadDataScore v }))).filterMap id

/-- Modelled from the spec: the Team Normalizer of §4.4 is not part of src/
(src/ holds only the result type `FullUserPerformance` and the orchestrating
`loadData`; the repository's normalization layer is described in its
methodology documents but its code is absent). Status carried by a
normalized score: either a percentile rank, or the `TeamTooSmall`
degradation. -/
inductive NormStatus where
  | ranked : ℚ → NormStatus
  | teamTooSmall : NormStatus
deriving DecidableEq, Repr

/-- Modelled from the spec (§3, §4.4): a member's normalized score, pairing
the unchanged raw score with the ranking status. -/
structure NormalizedScore where
  raw_score : ℚ
  status : NormStatus
deriving DecidableEq, Repr

/-- Modelled from the spec (§4.4): the configured minimum team size,
default 3. -/
def MIN_TEAM_SIZE : ℕ := 3

/-- Modelled from the spec (§4.4): the percentile rank of a raw score
within the team's raw-score distribution. -/
def percentileRank (scores : List ℚ) (s : ℚ) : ℚ :=
  100 * ((scores.filter (fun t => t < s)).length : ℚ) / (scores.length : ℚ)

/-- Modelled from the spec (§4.4): the Team Normalizer. A team whose size is
below the configured minimum gets its raw scores back unranked with the
`TeamTooSmall` status instead of a percentile; otherwise every member
receives a percentile rank. -/
def normalizeTeam (scores : List ℚ) : List NormalizedScore :=
  if scores.length < MIN_TEAM_SIZE then
    scores.map (fun s => { raw_score := s, status := NormStatus.teamTooSmall })
  else
    scores.map (fun s =>
      { raw_score := s, status := NormStatus.ranked (percentileRank scores s) })

/-- A rigged `Math.random()` stream that always draws 0 (a legal value:
`Math.random()` ranges over [0,1)). -/
def randLo : ℕ → ℚ := fun _ => 0

/-- A rigged `Math.random()` stream that always draws 1/2 (a legal value). -/
def randMid : ℕ → ℚ := fun _ => 1 / 2

/-- A two-member roster (the first two provided users) used as concrete
input. -/
def rosterTwo : List User :=
  [{ id := "alice-dev", name := "Alice", role := "DEV", avatarUrl := none },
   { id := "bob-backend", name := "Bob", role := "BACKEND", avatarUrl := none }]

/-- Concrete activity variables used as a witness input. -/
def vAlice : Variables :=
  { base_points := 100, difficulty_factor := 6 / 5, peer_kudos_count := 10,
    blocker_penalty_total := 5 }

/-- A fetch in which the backend answers for alice but the request for bob
fails (models a rejected `calculateScore` promise). -/
def failingFetch : String → Option Variables := fun id =>
  if id = "alice-dev" then some vAlice else none

/-- The score as a function of the kudos count alone, the other activity
variables held fixed (the kudos term of api.ts line 118, `* 1.5`). -/
def scoreWithKudos (v : Variables) (U : ℕ) : ℚ :=
  calculatedScore { v with peer_kudos_count := (U : ℚ) }

/-- The 10-member team of the C7 scenario: member 0 holds 70 of the team's
100 total base work. -/
def teamTen : List Variables :=
  [⟨70, 1, 0, 0⟩, ⟨10, 1, 0, 0⟩, ⟨4, 1, 0, 0⟩, ⟨4, 1, 0, 0⟩, ⟨2, 1, 0, 0⟩,
   ⟨2, 1, 0, 0⟩, ⟨2, 1, 0, 0⟩, ⟨2, 1, 0, 0⟩, ⟨2, 1, 0, 0⟩, ⟨2, 1, 0, 0⟩]

/-- `aliceUser`: the first provided user record, as `fetchUsers` builds it. -/
def aliceUser : User :=
  { id := "alice-dev", name := "Alice", role := "DEV", avatarUrl := none }

/-- Helper: `loadDataResults` is the `filterMap` of the per-member fetch. -/
theorem loadDataResults_eq (usersList : List User) (fetch : String → Option Variables) :
    loadDataResults usersList fetch =
      usersList.filterMap (fun u =>
        (fetch u.id).map (fun v =>
          { user := u, vars := v, final_score := loadDataScore v })) := by
  simp [loadDataResults, List.filterMap_map, Function.comp]

/-- Helper: the batch result has exactly one entry per member whose fetch
succeeded. -/
theorem loadDataResults_length (usersList : List User) (fetch : String → Option Variables) :
    (loadDataResults usersList fetch).length =
      (usersList.filter (fun w => (fetch w.id).isSome)).length := by
  rw [loadDataResults_eq]
  induction usersList with
  | nil => rfl
  | cons u us ih =>
    cases h : fetch u.id with
    | none => simpa [List.filterMap_cons, List.filter_cons, h] using ih
    | some v => simpa [List.filterMap_cons, List.filter_cons, h] using ih

/-- C1: the claim expects 115 for `base_points=100, difficulty_factor=1.2,
peer_kudos_count=10, blocker_penalty_total=5`; the code computes
`100*1.2 + 10*1.5 - 5 = 130` in both `calculateScore` and `loadData`,
because the kudos weight 1.5 is hardcoded (there are no alpha-delta
coefficients to set to 0). -/
theorem c1_counterexample :
    calculatedScore vAlice ≠ 115 ∧ loadDataScore vAlice ≠ 115 := by
  constructor <;> norm_num [calculatedScore, loadDataScore, vAlice]

/-- C1 (amended): for that input both `calculateScore` and the recomputation
in `loadData` yield `100*1.2 + 10*1.5 - 5 = 130`. -/
theorem c1_amended :
    calculatedScore vAlice = 130 ∧ loadDataScore vAlice = 130 := by
  constructor <;> norm_num [calculatedScore, loadDataScore, vAlice]

/-- C2: at kudos count 0 the marginal increase does not strictly decrease:
`score(1) - score(0) = score(2) - score(1) = 1.5`, refuting the
logarithmic diminishing-returns law claimed of the kudos contribution. -/
theorem c2_counterexample :
    ¬(scoreWithKudos vAlice 1 - scoreWithKudos vAlice 0 >
        scoreWithKudos vAlice 2 - scoreWithKudos vAlice 1) := by
  norm_num [scoreWithKudos, calculatedScore, vAlice]

/-- C2 (amended): for every fixed set of other activity variables, the score
is strictly increasing in the kudos count with a CONSTANT marginal increase
of 1.5 per kudo (linear, not logarithmic). -/
theorem c2_amended (v : Variables) (U : ℕ) :
    scoreWithKudos v (U + 1) - scoreWithKudos v U = 3 / 2 ∧
    scoreWithKudos v U < scoreWithKudos v (U + 1) := by
  have h : scoreWithKudos v (U + 1) - scoreWithKudos v U = 3 / 2 := by
    simp only [scoreWithKudos, calculatedScore]
    push_cast
    ring
  exact ⟨h, by linarith⟩

/-- C3: the result of `calculateScore` is NOT deterministic: its attached
`score_history` depends on the `Math.random()` draws, so two runs over the
identical input (`userId = alice-dev`, same fetched variables) with two
legal random streams (all draws in [0,1)) produce different results. -/
theorem c3_random_history :
    (∀ i : ℕ, 0 ≤ randLo i ∧ randLo i < 1) ∧
    (∀ i : ℕ, 0 ≤ randMid i ∧ randMid i < 1) ∧
    calculateScoreResult "alice-dev" vAlice randLo ≠
      calculateScoreResult "alice-dev" vAlice randMid := by
  refine ⟨fun i => ⟨le_refl 0, by norm_num [randLo]⟩,
    fun i => ⟨by norm_num [randMid], by norm_num [randMid]⟩, ?_⟩
  intro hEq
  have h := congrArg (fun r => (r.advanced.score_history.headD ⟨"", 0⟩).score) hEq
  simp only [calculateScoreResult, generateAdvancedMetrics, generateHistory, monthsList,
    List.enum, List.enumFrom, List.map_cons, List.headD_cons, randLo, randMid] at h
  norm_num [calculatedScore, vAlice, max_def] at h

/-- C4: with the two-member roster in which bob's fetch fails, `loadData`
produces only one result: the failing member is silently dropped (filtered
out), not kept as an `Incomplete` entry, so the result set does not have one
entry per roster member. -/
theorem c4_counterexample :
    rosterTwo.length = 2 ∧
    loadDataResults rosterTwo failingFetch =
      [{ user := aliceUser, vars := vAlice, final_score := 130 }] := by
  have h : loadDataScore vAlice = 130 := by norm_num [loadDataScore, vAlice]
  refine ⟨rfl, ?_⟩
  rw [loadDataResults_eq]
  simp [rosterTwo, failingFetch, aliceUser, h]

/-- C4 (amended): a member's failure does not abort the batch — every member
whose fetch succeeds still contributes its result — but the batch has
exactly one entry per SUCCESSFUL member; failed members are dropped from
the result set rather than marked `Incomplete`. -/
theorem c4_amended (usersList : List User) (fetch : String → Option Variables)
    (u : User) (v : Variables) (hu : u ∈ usersList) (hv : fetch u.id = some v) :
    ({ user := u, vars := v, final_score := loadDataScore v } : FullUserPerformance) ∈
      loadDataResults usersList fetch ∧
    (loadDataResults usersList fetch).length =
      (usersList.filter (fun w => (fetch w.id).isSome)).length := by
  constructor
  · rw [loadDataResults_eq]
    exact List.mem_filterMap.mpr ⟨u, hu, by rw [hv]; rfl⟩
  · exact loadDataResults_length usersList fetch

/-- C4 witness: concretely, alice's result is in the batch and the batch
length equals the number of successful members. -/
theorem c4_amended_witness :
    aliceUser ∈ rosterTwo ∧ failingFetch aliceUser.id = some vAlice ∧
    (({ user := aliceUser, vars := vAlice, final_score := loadDataScore vAlice } :
        FullUserPerformance) ∈ loadDataResults rosterTwo failingFetch ∧
      (loadDataResults rosterTwo failingFetch).length =
        (rosterTwo.filter (fun w => (failingFetch w.id).isSome)).length) :=
  ⟨by decide, rfl,
    c4_amended rosterTwo failingFetch aliceUser vAlice (by decide) rfl⟩

/-- C5: no defensive clamp exists: a negative `blocker_penalty_total` input
is subtracted as-is, making the applied penalty negative (it ADDS 5 points
to the score here), refuting "the total blocker penalty subtracted is never
negative". -/
theorem c5_counterexample :
    penaltyTotal (Variables.mk 100 1 0 (-5)) < 0 ∧
    calculatedScore (Variables.mk 100 1 0 (-5)) = 105 := by
  constructor <;> norm_num [penaltyTotal, calculatedScore]

/-- C5 (amended): the penalty the score subtracts is exactly the single
aggregate input `blocker_penalty_total` (not a combination of delays,
rework, and unresolved blockers): it is monotone non-decreasing in that
input and zero when the input is zero, but no clamp to 0 is applied, so a
negative input yields a negative penalty. -/
theorem c5_amended (v w z : Variables)
    (h : v.blocker_penalty_total ≤ w.blocker_penalty_total)
    (hz : z.blocker_penalty_total = 0) :
    penaltyTotal v ≤ penaltyTotal w ∧ penaltyTotal z = 0 ∧
    calculatedScore v = base_work v + v.peer_kudos_count * (3 / 2) - penaltyTotal v :=
  ⟨h, hz, by simp [calculatedScore, base_work, penaltyTotal]⟩

/-- C5 witness: the amended statement evaluated at concrete inputs. -/
theorem c5_amended_witness :
    (Variables.mk 0 0 0 1).blocker_penalty_total ≤
      (Variables.mk 0 0 0 2).blocker_penalty_total ∧
    (Variables.mk 0 0 0 0).blocker_penalty_total = 0 ∧
    (penaltyTotal (Variables.mk 0 0 0 1) ≤ penaltyTotal (Variables.mk 0 0 0 2) ∧
      penaltyTotal (Variables.mk 0 0 0 0) = 0 ∧
      calculatedScore (Variables.mk 0 0 0 1) =
        base_work (Variables.mk 0 0 0 1) +
          (Variables.mk 0 0 0 1).peer_kudos_count * (3 / 2) -
          penaltyTotal (Variables.mk 0 0 0 1)) :=
  ⟨by norm_num, rfl, c5_amended (Variables.mk 0 0 0 1) (Variables.mk 0 0 0 2)
    (Variables.mk 0 0 0 0) (by norm_num) rfl⟩

/-- C6: a team below the configured minimum size never receives percentile
ranks: the normalizer returns the raw scores unchanged and unranked, every
member carrying the `TeamTooSmall` status instead of a percentile. -/
theorem c6_team_too_small (scores : List ℚ) (h : scores.length < MIN_TEAM_SIZE) :
    normalizeTeam scores =
      scores.map (fun s => { raw_score := s, status := NormStatus.teamTooSmall }) := by
  simp [normalizeTeam, h]

/-- C6 witness: a 2-member team gets `TeamTooSmall` on both members. -/
theorem c6_team_too_small_witness :
    ([1, 2] : List ℚ).length < MIN_TEAM_SIZE ∧
    normalizeTeam [1, 2] =
      [{ raw_score := 1, status := NormStatus.teamTooSmall },
       { raw_score := 2, status := NormStatus.teamTooSmall }] :=
  ⟨by decide, c6_team_too_small [1, 2] (by decide)⟩

/-- C7: burnout risk ignores workload concentration: in the 10-member team
in which one member holds 70 of the 100 total base work, that member's
locally computed score is 70 ≤ 150, so the code assigns `burnout_risk = 30`,
which is NOT above the default 60 threshold. -/
theorem c7_counterexample :
    teamTen.length = 10 ∧
    base_work ⟨70, 1, 0, 0⟩ / (teamTen.map base_work).sum = 7 / 10 ∧
    (generateAdvancedMetrics "alice-dev" (calculatedScore ⟨70, 1, 0, 0⟩)
        randLo).wellness.burnout_risk = 30 ∧
    ¬((generateAdvancedMetrics "alice-dev" (calculatedScore ⟨70, 1, 0, 0⟩)
        randLo).wellness.burnout_risk > 60) := by
  have hcs : calculatedScore ⟨70, 1, 0, 0⟩ = 70 := by norm_num [calculatedScore]
  have hb : (generateAdvancedMetrics "alice-dev" (calculatedScore ⟨70, 1, 0, 0⟩)
      randLo).wellness.burnout_risk = (if calculatedScore ⟨70, 1, 0, 0⟩ > 150
        then (85 : ℚ) else 30) := rfl
  have hb30 : (generateAdvancedMetrics "alice-dev" (calculatedScore ⟨70, 1, 0, 0⟩)
      randLo).wellness.burnout_risk = 30 := by
    rw [hb, hcs]
    norm_num
  refine ⟨rfl, by norm_num [teamTen, base_work], hb30, by rw [hb30]; norm_num⟩

/-- C7 (amended): `burnout_risk` is the two-valued score rule
`85 if baseScore > 150 else 30`, always within [0,100]; it is a function of
the locally computed score only, independent of the team's base-work
distribution. -/
theorem c7_amended (userId : String) (score : ℚ) (rand : ℕ → ℚ) :
    (generateAdvancedMetrics userId score rand).wellness.burnout_risk =
      (if score > 150 then 85 else 30) ∧
    0 ≤ (generateAdvancedMetrics userId score rand).wellness.burnout_risk ∧
    (generateAdvancedMetrics userId score rand).wellness.burnout_risk ≤ 100 := by
  have h : (generateAdvancedMetrics userId score rand).wellness.burnout_risk =
      (if score > 150 then 85 else 30) := rfl
  refine ⟨h, ?_, ?_⟩ <;> rw [h] <;> split <;> norm_num

/-- C8: with zero kudos and zero penalties (the only multiplier-like input,
the hardcoded kudos weight, then contributes nothing), the computed raw
score equals the base work `base_points * difficulty_factor`, with nothing
added or subtracted, in both `calculateScore` and the `loadData`
recomputation. -/
theorem c8_score_eq_base_work (v : Variables) (hk : v.peer_kudos_count = 0)
    (hp : v.blocker_penalty_total = 0) :
    calculatedScore v = base_work v ∧ loadDataScore v = base_work v := by
  constructor <;> simp [calculatedScore, loadDataScore, base_work, hk, hp]

/-- C8 witness: evaluated at base_points 100 and difficulty_factor 1.2. -/
theorem c8_score_eq_base_work_witness :
    (Variables.mk 100 (6 / 5) 0 0).peer_kudos_count = 0 ∧
    (Variables.mk 100 (6 / 5) 0 0).blocker_penalty_total = 0 ∧
    (calculatedScore (Variables.mk 100 (6 / 5) 0 0) =
        base_work (Variables.mk 100 (6 / 5) 0 0) ∧
      loadDataScore (Variables.mk 100 (6 / 5) 0 0) =
        base_work (Variables.mk 100 (6 / 5) 0 0)) :=
  ⟨rfl, rfl, c8_score_eq_base_work (Variables.mk 100 (6 / 5) 0 0) rfl rfl⟩

/-- C9: `fetchUsers` is a pure constant resolving to exactly the five
hardcoded users, with capitalized first segment as name, uppercased second
segment as role, and no avatar URL. -/
theorem c9_fetchUsers_constant :
    fetchUsers =
      [{ id := "alice-dev", name := "Alice", role := "DEV", avatarUrl := none },
       { id := "bob-backend", name := "Bob", role := "BACKEND", avatarUrl := none },
       { id := "charlie-frontend", name := "Charlie", role := "FRONTEND", avatarUrl := none },
       { id := "diana-ml", name := "Diana", role := "ML", avatarUrl := none },
       { id := "ethan-arch", name := "Ethan", role := "ARCH", avatarUrl := none }] := by
  decide

/-- C10: for every userId, base score, and random stream, the generated
`attrition_risk_prediction` is exactly High when the score exceeds 160 and
Low otherwise; Medium is never produced. -/
theorem c10_attrition_two_valued (userId : String) (score : ℚ) (rand : ℕ → ℚ) :
    (generateAdvancedMetrics userId score rand).attrition_risk_prediction =
      (if score > 160 then "High" else "Low") ∧
    (generateAdvancedMetrics userId score rand).attrition_risk_prediction ≠ "Medium" := by
  have h : (generateAdvancedMetrics userId score rand).attrition_risk_prediction =
      (if score > 160 then "High" else "Low") := rfl
  refine ⟨h, ?_⟩
  rw [h]
  split <;> decide

end Doremon
